import Mathlib

/-!
Verification of the birthday-surprise application core against its
natural-language specification.  The definitions below are a shallow
embedding of the Python source (`main_code.py`): the matching mini-game
(`BirthdayApp.flip_card` / `flip_back`), the beating-heart loop
(`draw_beating_heart.beat`), the confetti particle system
(`Confetti.step`), the balloon drift loop (`animate_balloons.float_up`),
the image loader (`ImageLoader.load` / `list_images`) and the canvas
operations they perform.  Randomness (`random.randint`, `random.uniform`)
is modelled by explicit oracle arguments, Python floats by exact
rationals, and the Tk canvas by explicit record state.
-/

/- ------------------------------------------------------------------
MatchGame (BirthdayApp flip_card, flip_back, show_win_message).
The source stores the revealed state in the buttons (text and enabled
flag); a card at index i is face up exactly when i is in matched or in
flipped, which we expose through the derived cardState view.
------------------------------------------------------------------ -/

/-- Per-card view used by the specification: Hidden, Flipped or Matched. -/
inductive CardState where
  | Hidden : CardState
  | Flipped : CardState
  | Matched : CardState
deriving DecidableEq, Repr

/-- State of the matching mini-game: the shuffled word list
(`self.game_words`), the matched index list (`self.matched`), the
currently flipped index list (`self.flipped`), whether a delayed
`flip_back` callback is pending (`self.after(800, self.flip_back)`), and
whether the win message has been shown (`show_win_message`). -/
structure GameState where
  game_words : List String
  matched : List Nat
  flipped : List Nat
  pendingFlipBack : Bool
  wonShown : Bool
deriving DecidableEq, Repr

/-- Initial game state: all cards hidden, nothing matched or pending. -/
def initGame (ws : List String) : GameState :=
  { game_words := ws, matched := [], flipped := [], pendingFlipBack := false, wonShown := false }

/-- Embedding of `BirthdayApp.flip_card(self, index)`.  Mirrors the source:
return unchanged if the index is matched or already flipped; otherwise
append to flipped; when the flipped list has exactly two entries, compare
the two words: on a match move both into matched and clear flipped
(showing the win message when every card is matched), otherwise schedule
the delayed `flip_back`. -/
def flip_card (s : GameState) (index : Nat) : GameState :=
  if index ∈ s.matched ∨ index ∈ s.flipped then s
  else
    let s1 : GameState := { s with flipped := s.flipped ++ [index] }
    if s1.flipped.length = 2 then
      match s1.flipped with
      | [i1, i2] =>
        if s1.game_words.getD i1 "" = s1.game_words.getD i2 "" then
          let s2 : GameState := { s1 with matched := s1.matched ++ [i1, i2], flipped := [] }
          if s2.matched.length = s2.game_words.length then
            { s2 with wonShown := true }
          else s2
        else { s1 with pendingFlipBack := true }
      | _ => s1
    else s1

/-- Embedding of `BirthdayApp.flip_back(self)`: every flipped card is
reverted to hidden and the flipped list is cleared. -/
def flip_back (s : GameState) : GameState :=
  { s with flipped := [], pendingFlipBack := false }

/-- Derived card state: a button shows its word and is disabled exactly
when its index is in matched or in flipped. -/
def cardState (s : GameState) (i : Nat) : CardState :=
  if i ∈ s.matched then CardState.Matched
  else if i ∈ s.flipped then CardState.Flipped
  else CardState.Hidden

/- ------------------------------------------------------------------
HeartPulse (BirthdayApp.draw_beating_heart local function beat).
Each tick draws the outline at the current scale, then computes
next_scale = scale plus or minus 0.02, flips the direction flag when
next_scale passes 1.08 or 0.92, and reschedules beat(next_scale, growing).
------------------------------------------------------------------ -/

/-- State carried between beat ticks: the scale argument and the growing
flag of the rescheduled call. -/
structure HeartState where
  scale : ℚ
  growing : Bool
deriving DecidableEq, Repr

/-- Embedding of one transition of `beat(scale, growing)`: the drawn scale
of the next tick together with its direction flag.  Mirrors the source:
`next_scale = scale + (0.02 if growing else -0.02)`, then
`if next_scale > 1.08: growing = False`, then
`if next_scale < 0.92: growing = True`. -/
def beat_step (s : HeartState) : HeartState :=
  let next_scale : ℚ := s.scale + (if s.growing then 0.02 else -0.02)
  let g1 : Bool := if next_scale > 1.08 then false else s.growing
  let g2 : Bool := if next_scale < 0.92 then true else g1
  { scale := next_scale, growing := g2 }

/-- The beat loop is started by `beat(1.0, True)`. -/
def beatStart : HeartState := { scale := 1, growing := true }

/- ------------------------------------------------------------------
ParticleSystem (class Confetti).  A piece is a canvas oval created as
create_oval(x, y, x + r, y + r) together with its stored speed and drift;
the colour is carried along to express that a respawn preserves it.  The
canvas coordinates of the oval are the four fields x1 y1 x2 y2, so the
radius parameter of the source appears as y2 - y1.  random.randint(0, w)
of the respawn branch is supplied as the oracle argument sample.
------------------------------------------------------------------ -/

/-- One confetti piece: the canvas coordinates of its oval, its per-tick
fall speed and horizontal drift, and its colour. -/
structure ConfettiPiece where
  x1 : ℚ
  y1 : ℚ
  x2 : ℚ
  y2 : ℚ
  speed : ℚ
  drift : ℚ
  color : String
deriving DecidableEq, Repr

/-- Embedding of the per-piece body of `Confetti.step(self)`: move the
oval by (drift, speed); if its top edge y1 is then below the surface
bottom (y1 > h), move it by (sample - x1, -h - (y2 - y1)), which places
its left edge at the sampled x and lifts it back above the top. -/
def confettiStep (h : ℚ) (sample : ℤ) (p : ConfettiPiece) : ConfettiPiece :=
  let q : ConfettiPiece := { p with
    x1 := p.x1 + p.drift, x2 := p.x2 + p.drift,
    y1 := p.y1 + p.speed, y2 := p.y2 + p.speed }
  if q.y1 > h then
    let dx : ℚ := (sample : ℚ) - q.x1
    let dy : ℚ := -h - (q.y2 - q.y1)
    { q with x1 := q.x1 + dx, x2 := q.x2 + dx, y1 := q.y1 + dy, y2 := q.y2 + dy }
  else q

/-- Concrete piece used to exhibit the respawn edge case: spawned at
x = 100, y = 0 (a legal initial position), radius 3, speed 4.0, drift 0,
on a 500-pixel-tall canvas. -/
def fallingPiece : ConfettiPiece :=
  { x1 := 100, y1 := 0, x2 := 103, y2 := 3, speed := 4, drift := 0, color := "#ff4d6d" }

/- ------------------------------------------------------------------
BalloonDrift (BirthdayApp.animate_balloons local function float_up).
A balloon is an oval body create_oval(x, y, x+40, y+50) plus a tether
line create_line(x+20, y+50, x+20, y+70).  Each tick moves both by
(0, -1); if the body top edge y coordinate is then below -60 it moves
both down by dy = 500, the height of the balloon canvases.
------------------------------------------------------------------ -/

/-- One balloon: canvas coordinates of the body oval and the tether line. -/
structure Balloon where
  bx1 : ℤ
  by1 : ℤ
  bx2 : ℤ
  by2 : ℤ
  sx1 : ℤ
  sy1 : ℤ
  sx2 : ℤ
  sy2 : ℤ
deriving DecidableEq, Repr

/-- Height of the balloon side canvases, from
tk.Canvas(self.welcome, width=120, height=500, ...). -/
def balloonCanvasHeight : ℤ := 500

/-- Embedding of one per-balloon iteration of `float_up()`: move body and
tether by (0, -1); read the body top edge y; if y < -60 move both down by
dy = 500. -/
def float_up_one (b : Balloon) : Balloon :=
  let m : Balloon :=
    { bx1 := b.bx1, by1 := b.by1 - 1, bx2 := b.bx2, by2 := b.by2 - 1,
      sx1 := b.sx1, sy1 := b.sy1 - 1, sx2 := b.sx2, sy2 := b.sy2 - 1 }
  if m.by1 < -60 then
    { bx1 := m.bx1, by1 := m.by1 + 500, bx2 := m.bx2, by2 := m.by2 + 500,
      sx1 := m.sx1, sy1 := m.sy1 + 500, sx2 := m.sx2, sy2 := m.sy2 + 500 }
  else m

/-- A balloon whose body top edge sits 1 unit above the canvas top bound
(y = -1), as created at x = 30 with the standard 40x50 body and tether. -/
def balloonNearTop : Balloon :=
  { bx1 := 30, by1 := -1, bx2 := 70, by2 := 49, sx1 := 50, sy1 := 49, sx2 := 50, sy2 := 69 }

/- ------------------------------------------------------------------
AssetCache (class ImageLoader).  load canonicalizes the path with
os.path.abspath, returns the memoized handle on a cache hit, otherwise
attempts a decode (Pillow or Tk backend, both of which may raise and are
caught, producing None) and memoizes only a successful handle.
os.path.abspath and the decode pipeline are oracle parameters: abspath is
the canonicalization function and backend maps a canonical path to
some handle or none (a caught exception).  The decodeCount field counts
decode attempts so that "no second decode" is expressible.
------------------------------------------------------------------ -/

/-- Mutable state of an ImageLoader: the memoization dictionary
`self.cache` (keyed by canonical absolute path) and the number of decode
attempts performed so far. -/
structure LoaderState where
  cache : List (String × Nat)
  decodeCount : Nat
deriving DecidableEq, Repr

/-- Dictionary lookup, mirroring `if path in self.cache: return
self.cache[path]` on a Python dict with string keys. -/
def cacheLookup : List (String × Nat) → String → Option Nat
  | [], _ => none
  | (k, v) :: t, key => if key = k then some v else cacheLookup t key

/-- Embedding of `ImageLoader.load(self, path)`: canonicalize the path,
return the cached handle on a hit; on a miss attempt a decode, returning
none without caching on failure and caching the handle on success. -/
def ImageLoader.load (abspath : String → String) (backend : String → Option Nat)
    (s : LoaderState) (path : String) : Option Nat × LoaderState :=
  let p := abspath path
  match cacheLookup s.cache p with
  | some ph => (some ph, s)
  | none =>
    match backend p with
    | none => (none, { cache := s.cache, decodeCount := s.decodeCount + 1 })
    | some ph => (some ph, { cache := (p, ph) :: s.cache, decodeCount := s.decodeCount + 1 })

/-- Concrete canonicalization oracle for the witnesses: the relative name
pic.png and the absolute /app/pic.png canonicalize to the same key, as
os.path.abspath does for a relative and an absolute spelling of one file. -/
def abspath0 (p : String) : String :=
  if p = "pic.png" then "/app/pic.png" else p

/-- Concrete always-succeeding decode oracle for the witnesses. -/
def backendOk (_ : String) : Option Nat := some 7

/-- Concrete always-failing decode oracle (a corrupt or missing file). -/
def backendBad (_ : String) : Option Nat := none

/-- Concrete decode oracle after the broken file has been fixed. -/
def backendFixed (_ : String) : Option Nat := some 5

/- ------------------------------------------------------------------
ImageLoader.list_images.  The source returns [] when the images directory
does not exist, otherwise filters the directory listing by
os.path.splitext(f.lower())[1] against the backend-dependent extension
allow-list, joins each name onto IMG_DIR and sorts the result.  The
directory existence flag, the directory path and the raw listing are
parameters; PIL availability is the boolean pil.
------------------------------------------------------------------ -/

/-- Extension part of os.path.splitext on a bare file name: the suffix
starting at the last dot, or empty when the only dots are leading ones
(leading dots of the final component belong to the root, as in Python). -/
def extOf : List Char → List Char
  | [] => []
  | c :: rest =>
    let e := extOf rest
    if e = [] then (if c = '.' then c :: rest else []) else e

/-- Wrapper of extOf on strings, stripping the leading-dot run first so a
name such as .bashrc has no extension, matching os.path.splitext. -/
def splitext_ext (s : String) : String :=
  ⟨extOf (s.data.dropWhile (fun c => c == '.'))⟩

/-- Embedding of Python str.lower on the ASCII range relevant to file
extensions: lowercase every character. -/
def pyLower (s : String) : String :=
  ⟨s.data.map Char.toLower⟩

/-- Embedding of os.path.join for a directory and a bare file name. -/
def os_path_join (d f : String) : String := d ++ "/" ++ f

/-- Embedding of `ImageLoader.list_images(self)`: empty when the images
directory is missing; otherwise the listing filtered by the
backend-dependent extension allow-list applied to the lowercased name,
joined onto the directory and sorted ascending (Python list.sort). -/
def list_images (pil : Bool) (imgDirExists : Bool) (imgDir : String)
    (listing : List String) : List String :=
  if imgDirExists = false then []
  else
    let exts : List String :=
      if pil then [".png", ".gif", ".jpg", ".jpeg"] else [".png", ".gif"]
    let files : List String :=
      (listing.filter (fun f => exts.contains (splitext_ext (pyLower f)))).map
        (fun f => os_path_join imgDir f)
    List.insertionSort (fun a b => a ≤ b) files

/- ------------------------------------------------------------------
DrawingSurface state for the beat frame effect.  A canvas is a list of
drawn primitives, each carrying its Tk tag and coordinates.
canvas.delete(tag) removes exactly the primitives with that tag; beat
deletes the heart tag and then draws the 160 outline segments, each
tagged heart.  The outline points are a parameter: the claim concerns
tags only, so the trigonometric geometry of heart_points is irrelevant
and the segment endpoints are carried opaquely.
------------------------------------------------------------------ -/

/-- One drawn canvas primitive: its tag and its coordinates. -/
structure CanvasItem where
  tag : String
  coords : List ℚ
deriving DecidableEq, Repr

/-- Embedding of `canvas.delete(tag)`: remove every item with the tag. -/
def canvasDeleteTag (tag : String) (c : List CanvasItem) : List CanvasItem :=
  c.filter (fun it => it.tag != tag)

/-- The closed polyline drawn by beat: one create_line per point pair,
every segment tagged heart. -/
def heartLineItems (pts : List (ℚ × ℚ)) : List CanvasItem :=
  (List.range pts.length).map (fun i =>
    { tag := "heart",
      coords := [(pts.getD i (0, 0)).1, (pts.getD i (0, 0)).2,
                 (pts.getD ((i + 1) % pts.length) (0, 0)).1,
                 (pts.getD ((i + 1) % pts.length) (0, 0)).2] })

/-- Canvas effect of one `beat()` call: `self.canvas.delete("heart")`
followed by the create_line calls for the new outline. -/
def beat_draw (pts : List (ℚ × ℚ)) (c : List CanvasItem) : List CanvasItem :=
  canvasDeleteTag "heart" c ++ heartLineItems pts

/- ------------------------------------------------------------------
Theorems.
------------------------------------------------------------------ -/

/-- C1: the specification demands a hard cap of 2 on the flipped list: a
reveal of a third card while a non-matching pair awaits its delayed
resolution must be rejected with the state unchanged.  The source has no
such guard: from the fresh game [A, A, B, B], reveal 0 then reveal 2
leaves the non-matching pair [0, 2] pending, and reveal 3 is accepted,
growing the flipped list to [0, 2, 3] and changing the state, so the
cap is violated by the code. -/
theorem C1_third_reveal_accepted :
    (flip_card (flip_card (initGame ["A", "A", "B", "B"]) 0) 2).flipped = [0, 2] ∧
    (flip_card (flip_card (initGame ["A", "A", "B", "B"]) 0) 2).pendingFlipBack = true ∧
    cardState (flip_card (flip_card (initGame ["A", "A", "B", "B"]) 0) 2) 0 = CardState.Flipped ∧
    cardState (flip_card (flip_card (initGame ["A", "A", "B", "B"]) 0) 2) 2 = CardState.Flipped ∧
    (flip_card (flip_card (flip_card (initGame ["A", "A", "B", "B"]) 0) 2) 3).flipped = [0, 2, 3] ∧
    cardState (flip_card (flip_card (flip_card (initGame ["A", "A", "B", "B"]) 0) 2) 3) 3 = CardState.Flipped ∧
    flip_card (flip_card (flip_card (initGame ["A", "A", "B", "B"]) 0) 2) 3 ≠
      flip_card (flip_card (initGame ["A", "A", "B", "B"]) 0) 2 := by
  decide

/-- C4 counterexample: on the game [A, A, B, B], reveal 0 then reveal 1
leaves both cards Matched with the flipped list empty, but the win
message is NOT shown, refuting the claim that the "won" event is emitted
at that point (only 2 of 4 cards are matched). -/
theorem C4_won_not_emitted_after_first_pair :
    cardState (flip_card (flip_card (initGame ["A", "A", "B", "B"]) 0) 1) 0 = CardState.Matched ∧
    cardState (flip_card (flip_card (initGame ["A", "A", "B", "B"]) 0) 1) 1 = CardState.Matched ∧
    (flip_card (flip_card (initGame ["A", "A", "B", "B"]) 0) 1).flipped = [] ∧
    (flip_card (flip_card (initGame ["A", "A", "B", "B"]) 0) 1).wonShown = false := by
  decide

/-- C4 amended: reveal 0 then reveal 1 on [A, A, B, B] resolves
synchronously, both cards Matched, flipped list empty and no delayed
callback pending, but "won" is emitted only once every card is matched,
which happens after the remaining pair is revealed. -/
theorem C4_pair_match_resolution :
    (cardState (flip_card (flip_card (initGame ["A", "A", "B", "B"]) 0) 1) 0 = CardState.Matched ∧
     cardState (flip_card (flip_card (initGame ["A", "A", "B", "B"]) 0) 1) 1 = CardState.Matched ∧
     (flip_card (flip_card (initGame ["A", "A", "B", "B"]) 0) 1).flipped = [] ∧
     (flip_card (flip_card (initGame ["A", "A", "B", "B"]) 0) 1).pendingFlipBack = false ∧
     (flip_card (flip_card (initGame ["A", "A", "B", "B"]) 0) 1).wonShown = false) ∧
    ((flip_card (flip_card (flip_card (flip_card (initGame ["A", "A", "B", "B"]) 0) 1) 2) 3).matched = [0, 1, 2, 3] ∧
     (flip_card (flip_card (flip_card (flip_card (initGame ["A", "A", "B", "B"]) 0) 1) 2) 3).flipped = [] ∧
     (flip_card (flip_card (flip_card (flip_card (initGame ["A", "A", "B", "B"]) 0) 1) 2) 3).wonShown = true) := by
  decide

/-- C5 counterexample: a balloon whose body top edge is 1 unit above the
canvas top bound (y = -1) is not relocated by a step: it merely moves up
to y = -2, instead of being moved down by the surface height as the
claim states. -/
theorem C5_near_top_not_wrapped :
    (float_up_one balloonNearTop).by1 = -2 ∧
    (float_up_one balloonNearTop).by1 ≠ balloonNearTop.by1 - 1 + balloonCanvasHeight := by
  decide

/-- C5 amended: every step moves body and tether by (0, -1); a balloon is
relocated exactly 500 units (the canvas height) downward from its
pre-wrap position exactly when its post-move top edge is below -60, that
is, more than 60 units above the canvas top bound, body and tether moving
in lockstep; otherwise it is not relocated. -/
theorem C5_float_up_characterization (b : Balloon) :
    float_up_one b =
      if b.by1 - 1 < -60 then
        { bx1 := b.bx1, by1 := b.by1 - 1 + balloonCanvasHeight,
          bx2 := b.bx2, by2 := b.by2 - 1 + balloonCanvasHeight,
          sx1 := b.sx1, sy1 := b.sy1 - 1 + balloonCanvasHeight,
          sx2 := b.sx2, sy2 := b.sy2 - 1 + balloonCanvasHeight }
      else
        { bx1 := b.bx1, by1 := b.by1 - 1, bx2 := b.bx2, by2 := b.by2 - 1,
          sx1 := b.sx1, sy1 := b.sy1 - 1, sx2 := b.sx2, sy2 := b.sy2 - 1 } := by
  simp only [float_up_one, balloonCanvasHeight]

lemma beat_e0 : beat_step^[0] beatStart = { scale := 1, growing := true } := rfl

lemma beat_e1 : beat_step^[1] beatStart = { scale := 1.02, growing := true } := by
  rw [show (1 : ℕ) = 0 + 1 from rfl, Function.iterate_succ_apply', beat_e0]
  simp only [beat_step]
  norm_num

lemma beat_e2 : beat_step^[2] beatStart = { scale := 1.04, growing := true } := by
  rw [show (2 : ℕ) = 1 + 1 from rfl, Function.iterate_succ_apply', beat_e1]
  simp only [beat_step]
  norm_num

lemma beat_e3 : beat_step^[3] beatStart = { scale := 1.06, growing := true } := by
  rw [show (3 : ℕ) = 2 + 1 from rfl, Function.iterate_succ_apply', beat_e2]
  simp only [beat_step]
  norm_num

lemma beat_e4 : beat_step^[4] beatStart = { scale := 1.08, growing := true } := by
  rw [show (4 : ℕ) = 3 + 1 from rfl, Function.iterate_succ_apply', beat_e3]
  simp only [beat_step]
  norm_num

lemma beat_e5 : beat_step^[5] beatStart = { scale := 1.10, growing := false } := by
  rw [show (5 : ℕ) = 4 + 1 from rfl, Function.iterate_succ_apply', beat_e4]
  simp only [beat_step]
  norm_num

lemma beat_e6 : beat_step^[6] beatStart = { scale := 1.08, growing := false } := by
  rw [show (6 : ℕ) = 5 + 1 from rfl, Function.iterate_succ_apply', beat_e5]
  simp only [beat_step]
  norm_num

lemma beat_e7 : beat_step^[7] beatStart = { scale := 1.06, growing := false } := by
  rw [show (7 : ℕ) = 6 + 1 from rfl, Function.iterate_succ_apply', beat_e6]
  simp only [beat_step]
  norm_num

lemma beat_e8 : beat_step^[8] beatStart = { scale := 1.04, growing := false } := by
  rw [show (8 : ℕ) = 7 + 1 from rfl, Function.iterate_succ_apply', beat_e7]
  simp only [beat_step]
  norm_num

lemma beat_e9 : beat_step^[9] beatStart = { scale := 1.02, growing := false } := by
  rw [show (9 : ℕ) = 8 + 1 from rfl, Function.iterate_succ_apply', beat_e8]
  simp only [beat_step]
  norm_num

lemma beat_e10 : beat_step^[10] beatStart = { scale := 1, growing := false } := by
  rw [show (10 : ℕ) = 9 + 1 from rfl, Function.iterate_succ_apply', beat_e9]
  simp only [beat_step]
  norm_num

lemma beat_e11 : beat_step^[11] beatStart = { scale := 0.98, growing := false } := by
  rw [show (11 : ℕ) = 10 + 1 from rfl, Function.iterate_succ_apply', beat_e10]
  simp only [beat_step]
  norm_num

lemma beat_e12 : beat_step^[12] beatStart = { scale := 0.96, growing := false } := by
  rw [show (12 : ℕ) = 11 + 1 from rfl, Function.iterate_succ_apply', beat_e11]
  simp only [beat_step]
  norm_num

lemma beat_e13 : beat_step^[13] beatStart = { scale := 0.94, growing := false } := by
  rw [show (13 : ℕ) = 12 + 1 from rfl, Function.iterate_succ_apply', beat_e12]
  simp only [beat_step]
  norm_num

lemma beat_e14 : beat_step^[14] beatStart = { scale := 0.92, growing := false } := by
  rw [show (14 : ℕ) = 13 + 1 from rfl, Function.iterate_succ_apply', beat_e13]
  simp only [beat_step]
  norm_num

lemma beat_e15 : beat_step^[15] beatStart = { scale := 0.90, growing := true } := by
  rw [show (15 : ℕ) = 14 + 1 from rfl, Function.iterate_succ_apply', beat_e14]
  simp only [beat_step]
  norm_num

lemma beat_e16 : beat_step^[16] beatStart = { scale := 0.92, growing := true } := by
  rw [show (16 : ℕ) = 15 + 1 from rfl, Function.iterate_succ_apply', beat_e15]
  simp only [beat_step]
  norm_num

lemma beat_e17 : beat_step^[17] beatStart = { scale := 0.94, growing := true } := by
  rw [show (17 : ℕ) = 16 + 1 from rfl, Function.iterate_succ_apply', beat_e16]
  simp only [beat_step]
  norm_num

lemma beat_e18 : beat_step^[18] beatStart = { scale := 0.96, growing := true } := by
  rw [show (18 : ℕ) = 17 + 1 from rfl, Function.iterate_succ_apply', beat_e17]
  simp only [beat_step]
  norm_num

lemma beat_e19 : beat_step^[19] beatStart = { scale := 0.98, growing := true } := by
  rw [show (19 : ℕ) = 18 + 1 from rfl, Function.iterate_succ_apply', beat_e18]
  simp only [beat_step]
  norm_num

lemma beat_e20 : beat_step^[20] beatStart = { scale := 1, growing := true } := by
  rw [show (20 : ℕ) = 19 + 1 from rfl, Function.iterate_succ_apply', beat_e19]
  simp only [beat_step]
  norm_num


lemma beat_e20b : beat_step^[20] beatStart = beatStart := beat_e20

lemma beat_periodic (n : ℕ) : beat_step^[n + 20] beatStart = beat_step^[n] beatStart := by
  rw [Function.iterate_add_apply, beat_e20b]

lemma beat_cycle (q : ℕ) : beat_step^[20 * q] beatStart = beatStart := by
  induction q with
  | zero => rfl
  | succ k ih =>
    rw [show 20 * (k + 1) = 20 * k + 20 by ring, Function.iterate_add_apply, beat_e20b, ih]

lemma beat_mod (n : ℕ) : beat_step^[n] beatStart = beat_step^[n % 20] beatStart := by
  conv_lhs => rw [show n = n % 20 + 20 * (n / 20) by omega]
  rw [Function.iterate_add_apply, beat_cycle]

lemma beat_bounds_lt20 (r : ℕ) (hr : r < 20) :
    0.90 ≤ (beat_step^[r] beatStart).scale ∧ (beat_step^[r] beatStart).scale ≤ 1.10 := by
  interval_cases r <;>
    simp only [beat_e0, beat_e1, beat_e2, beat_e3, beat_e4, beat_e5, beat_e6, beat_e7,
      beat_e8, beat_e9, beat_e10, beat_e11, beat_e12, beat_e13, beat_e14, beat_e15,
      beat_e16, beat_e17, beat_e18, beat_e19] <;>
    norm_num

/-- C2 counterexample: on the fifth tick after beat(1.0, True) the heart
is drawn at scale 1.10, outside the claimed interval [0.92, 1.08]: the
outline is drawn with the advanced scale before the direction flip takes
effect, so the drawn scale overshoots each bound by one 0.02 step. -/
theorem C2_scale_exceeds_bound :
    (beat_step^[5] beatStart).scale = 1.10 ∧ ¬ ((beat_step^[5] beatStart).scale ≤ 1.08) := by
  rw [beat_e5]
  norm_num

/-- C2 amended: the scale used to draw on every tick of the loop started
by beat(1.0, True) stays within [0.90, 1.10], that is, within
[0.92 - 0.02, 1.08 + 0.02]: the scale advances by 0.02 while growing and
by -0.02 while shrinking, the direction switches to shrinking when the
advanced scale exceeds 1.08 and to growing when it drops below 0.92, and
the motion oscillates forever with period 20 ticks. -/
theorem C2_scale_bounded_oscillation (n : ℕ) :
    0.90 ≤ (beat_step^[n] beatStart).scale ∧ (beat_step^[n] beatStart).scale ≤ 1.10 ∧
    beat_step^[n + 20] beatStart = beat_step^[n] beatStart := by
  have hb := beat_bounds_lt20 (n % 20) (Nat.mod_lt _ (by norm_num))
  rw [← beat_mod] at hb
  exact ⟨hb.1, hb.2, beat_periodic n⟩

lemma confetti_fall_closed (n : ℕ) (hn : n ≤ 125) :
    (confettiStep 500 0)^[n] fallingPiece =
      { x1 := 100, y1 := 4 * (n : ℚ), x2 := 103, y2 := 4 * (n : ℚ) + 3,
        speed := 4, drift := 0, color := "#ff4d6d" } := by
  induction n with
  | zero => norm_num [fallingPiece]
  | succ k ih =>
    have hk : k ≤ 125 := by omega
    rw [Function.iterate_succ_apply', ih hk]
    simp only [confettiStep]
    split_ifs with hc
    · exfalso
      have hk2 : (k : ℚ) ≤ 124 := by exact_mod_cast (by omega : k ≤ 124)
      push_cast at hc
      linarith
    · simp only [ConfettiPiece.mk.injEq]
      push_cast
      refine ⟨by ring, by ring, by ring, by ring, trivial, trivial, trivial⟩

/-- C3 counterexample: the piece spawned at y = 0 with speed 4.0 and
radius 3 reaches y1 = 500 after 125 steps on a 500-tall canvas; the 126th
step moves it past the bottom (500 + 4 > 500), so the respawn branch
fires, yet its post-step y is 1, which is not below 0 as the claim
states, and the position change is not (drift, speed) either. -/
theorem C3_respawn_y_not_neg :
    ((confettiStep 500 0)^[125] fallingPiece).y1 + fallingPiece.speed > 500 ∧
    ((confettiStep 500 0)^[126] fallingPiece).y1 = 1 ∧
    ¬ (((confettiStep 500 0)^[126] fallingPiece).y1 < 0) := by
  have h125 := confetti_fall_closed 125 (le_refl _)
  have h126 : (confettiStep 500 0)^[126] fallingPiece =
      { x1 := 0, y1 := 1, x2 := 3, y2 := 4, speed := 4, drift := 0, color := "#ff4d6d" } := by
    rw [show (126 : ℕ) = 125 + 1 from rfl, Function.iterate_succ_apply', h125]
    simp only [confettiStep]
    split_ifs with hc
    · simp only [ConfettiPiece.mk.injEq]
      norm_num
    · exfalso
      push_cast at hc
      norm_num at hc
  rw [h125, h126]
  norm_num [fallingPiece]

/-- C3 amended: a step changes the position of a piece that starts within
the visible area (y1 at most the canvas height) by exactly
(drift, speed), unless the moved piece has fallen past the visible area
(post-move y1 exceeds the height), in which case its left edge is placed
at the sampled integer in [0, width], its post-step y1 equals the
post-move y1 minus (height + radius), which is at most speed - radius
(hence below 0 whenever the radius exceeds the speed, but not in
general), and its speed, drift, radius, width and colour are preserved:
a respawn, not a recreate. -/
theorem C3_step_characterization (hgt : ℚ) (w sample : ℤ) (p : ConfettiPiece)
    (hin : p.y1 ≤ hgt) (hs0 : 0 ≤ sample) (hsw : sample ≤ w) :
    (¬ (p.y1 + p.speed > hgt) →
      confettiStep hgt sample p =
        { x1 := p.x1 + p.drift, y1 := p.y1 + p.speed, x2 := p.x2 + p.drift,
          y2 := p.y2 + p.speed, speed := p.speed, drift := p.drift, color := p.color }) ∧
    ((p.y1 + p.speed > hgt) →
      (confettiStep hgt sample p).x1 = (sample : ℚ) ∧
      (0 : ℚ) ≤ (confettiStep hgt sample p).x1 ∧
      (confettiStep hgt sample p).x1 ≤ (w : ℚ) ∧
      (confettiStep hgt sample p).y1 = p.y1 + p.speed - hgt - (p.y2 - p.y1) ∧
      (confettiStep hgt sample p).y1 ≤ p.speed - (p.y2 - p.y1) ∧
      (confettiStep hgt sample p).speed = p.speed ∧
      (confettiStep hgt sample p).drift = p.drift ∧
      (confettiStep hgt sample p).color = p.color ∧
      (confettiStep hgt sample p).y2 - (confettiStep hgt sample p).y1 = p.y2 - p.y1 ∧
      (confettiStep hgt sample p).x2 - (confettiStep hgt sample p).x1 = p.x2 - p.x1) := by
  constructor
  · intro hc
    simp only [confettiStep]
    rw [if_neg hc]
  · intro hc
    simp only [confettiStep]
    rw [if_pos hc]
    dsimp only
    have hq0 : (0 : ℚ) ≤ (sample : ℚ) := by exact_mod_cast hs0
    have hqw : (sample : ℚ) ≤ (w : ℚ) := by exact_mod_cast hsw
    refine ⟨by ring, by linarith, by linarith, by ring, by linarith, rfl, rfl, rfl, by ring, by ring⟩

/-- C3 witness: the characterization applied to the concrete spawned
piece on its first step, which is an in-view translation by (0, 4). -/
theorem C3_step_characterization_witness :
    confettiStep 500 0 fallingPiece =
      { x1 := 100, y1 := 4, x2 := 103, y2 := 7, speed := 4, drift := 0, color := "#ff4d6d" } := by
  have h := (C3_step_characterization 500 800 0 fallingPiece (by norm_num [fallingPiece])
    (by norm_num) (by norm_num)).1 (by norm_num [fallingPiece])
  rw [h]
  norm_num [fallingPiece]

/-- C6: two loads through equivalent paths, meaning paths with the same
canonical form under os.path.abspath (which includes a relative and an
absolute spelling of one file), use one cache key: when the first call
returns a handle, the second call returns the identical memoized handle,
leaves the state untouched and performs no second decode (the decode
attempt count is unchanged). -/
theorem C6_load_memoized (abspath : String → String) (backend : String → Option Nat)
    (s s1 : LoaderState) (p q : String) (hh : Nat)
    (heq : abspath p = abspath q)
    (h1 : ImageLoader.load abspath backend s p = (some hh, s1)) :
    ImageLoader.load abspath backend s1 q = (some hh, s1) ∧
    (ImageLoader.load abspath backend s1 q).2.decodeCount = s1.decodeCount := by
  have main : ImageLoader.load abspath backend s1 q = (some hh, s1) := by
    unfold ImageLoader.load at h1 ⊢
    dsimp only at h1 ⊢
    rw [← heq]
    cases hlk : cacheLookup s.cache (abspath p) with
    | some v =>
      rw [hlk] at h1
      simp only [Prod.mk.injEq, Option.some.injEq] at h1
      obtain ⟨rfl, rfl⟩ := h1
      rw [hlk]
    | none =>
      rw [hlk] at h1
      cases hbk : backend (abspath p) with
      | none =>
        rw [hbk] at h1
        simp at h1
      | some ph =>
        rw [hbk] at h1
        simp only [Prod.mk.injEq, Option.some.injEq] at h1
        obtain ⟨rfl, rfl⟩ := h1
        simp [cacheLookup]
  exact ⟨main, by rw [main]⟩

/-- C6 witness: loading pic.png decodes and caches under the canonical
key /app/pic.png; loading the absolute spelling afterwards returns the
same handle 7 from the cache with the state unchanged. -/
theorem C6_load_memoized_witness :
    ImageLoader.load abspath0 backendOk { cache := [("/app/pic.png", 7)], decodeCount := 1 } "/app/pic.png" =
      (some 7, { cache := [("/app/pic.png", 7)], decodeCount := 1 }) :=
  (C6_load_memoized abspath0 backendOk { cache := [], decodeCount := 0 }
    { cache := [("/app/pic.png", 7)], decodeCount := 1 } "pic.png" "/app/pic.png" 7
    (by decide) (by decide)).1

/-- C7: when decoding a file fails, load returns a failure (the caught
exception produces None, never a crash, modelled by the total Option
result), inserts nothing into the cache, fails again on a second call
while the file is still broken, and a later retry with a fixed decode
succeeds because the failure was not cached. -/
theorem C7_load_failure_not_cached (abspath : String → String)
    (backend backend2 : String → Option Nat) (s : LoaderState) (p : String) (hh : Nat)
    (hmiss : cacheLookup s.cache (abspath p) = none)
    (hfail : backend (abspath p) = none)
    (hfix : backend2 (abspath p) = some hh) :
    ImageLoader.load abspath backend s p =
      (none, { cache := s.cache, decodeCount := s.decodeCount + 1 }) ∧
    ImageLoader.load abspath backend { cache := s.cache, decodeCount := s.decodeCount + 1 } p =
      (none, { cache := s.cache, decodeCount := s.decodeCount + 1 + 1 }) ∧
    (ImageLoader.load abspath backend2 { cache := s.cache, decodeCount := s.decodeCount + 1 } p).1 =
      some hh := by
  refine ⟨?_, ?_, ?_⟩ <;>
    · unfold ImageLoader.load
      dsimp only
      simp only [hmiss, hfail, hfix]

/-- C7 witness: a concrete broken file fails twice without polluting the
cache, and succeeds after the decode is fixed. -/
theorem C7_load_failure_not_cached_witness :
    ImageLoader.load abspath0 backendBad { cache := [], decodeCount := 0 } "broken.png" =
      (none, { cache := [], decodeCount := 1 }) ∧
    ImageLoader.load abspath0 backendBad { cache := [], decodeCount := 1 } "broken.png" =
      (none, { cache := [], decodeCount := 2 }) ∧
    (ImageLoader.load abspath0 backendFixed { cache := [], decodeCount := 1 } "broken.png").1 =
      some 5 :=
  C7_load_failure_not_cached abspath0 backendBad backendFixed
    { cache := [], decodeCount := 0 } "broken.png" 5 rfl rfl rfl

/-- C9: a beat tick deletes only the primitives tagged heart before
redrawing the outline; the sublist of confetti-tagged primitives of the
canvas, with their coordinates, is exactly preserved, so no confetti
particle is deleted or moved by a beat. -/
theorem C9_beat_preserves_confetti (pts : List (ℚ × ℚ)) (c : List CanvasItem) :
    (beat_draw pts c).filter (fun it => it.tag == "confetti") =
      c.filter (fun it => it.tag == "confetti") := by
  unfold beat_draw canvasDeleteTag
  rw [List.filter_append]
  have h2 : (heartLineItems pts).filter (fun it => it.tag == "confetti") = [] := by
    rw [List.filter_eq_nil_iff]
    intro a ha
    unfold heartLineItems at ha
    obtain ⟨i, hi, rfl⟩ := List.mem_map.mp ha
    simp
  rw [h2, List.append_nil, List.filter_filter]
  apply List.filter_congr
  intro it hmem
  cases hx : (it.tag == "confetti") with
  | false => simp [hx]
  | true =>
    have : it.tag = "confetti" := by simpa using hx
    simp [this]

lemma Char_toNat_ofNat_valid (n : ℕ) (h : n.isValidChar) : (Char.ofNat n).toNat = n := by
  simp only [Char.ofNat, dif_pos h, Char.ofNatAux, Char.toNat]
  rfl

lemma Char_toLower_eq_dot_iff (c : Char) : c.toLower = '.' ↔ c = '.' := by
  constructor
  · intro h
    simp only [Char.toLower] at h
    split at h
    · have h2 := congrArg Char.toNat h
      rw [Char_toNat_ofNat_valid (c.toNat + 32) (Or.inl (by omega))] at h2
      have h3 : ('.' : Char).toNat = 46 := rfl
      omega
    · exact h
  · intro h
    subst h
    decide

lemma extOf_map_toLower (l : List Char) :
    extOf (l.map Char.toLower) = (extOf l).map Char.toLower := by
  induction l with
  | nil => rfl
  | cons c rest ih =>
    simp only [List.map_cons, extOf]
    rw [ih]
    by_cases he : extOf rest = []
    · rw [he]
      simp only [List.map_nil, if_pos rfl]
      rw [apply_ite (List.map Char.toLower)]
      by_cases hc : c = '.'
      · rw [if_pos ((Char_toLower_eq_dot_iff c).mpr hc), if_pos hc]
        simp
      · rw [if_neg (fun h => hc ((Char_toLower_eq_dot_iff c).mp h)), if_neg hc]
        simp
    · rw [if_neg (by simpa using he), if_neg he]

lemma dropWhile_dot_map_toLower (l : List Char) :
    (l.map Char.toLower).dropWhile (fun c => c == '.') =
      (l.dropWhile (fun c => c == '.')).map Char.toLower := by
  induction l with
  | nil => rfl
  | cons c rest ih =>
    simp only [List.map_cons, List.dropWhile_cons]
    by_cases hc : c = '.'
    · have h1 : (Char.toLower c == '.') = true := by
        rw [beq_iff_eq]
        exact (Char_toLower_eq_dot_iff c).mpr hc
      have h2 : (c == '.') = true := by rw [beq_iff_eq]; exact hc
      simp only [h1, h2, if_pos rfl]
      exact ih
    · have h1 : (Char.toLower c == '.') = false := by
        rw [beq_eq_false_iff_ne]
        exact fun h => hc ((Char_toLower_eq_dot_iff c).mp h)
      have h2 : (c == '.') = false := by rw [beq_eq_false_iff_ne]; exact hc
      simp [h1, h2]

lemma splitext_ext_pyLower (s : String) :
    splitext_ext (pyLower s) = pyLower (splitext_ext s) := by
  unfold splitext_ext pyLower
  exact congrArg String.mk (by rw [dropWhile_dot_map_toLower, extOf_map_toLower])

/-- C8: every path returned by list_images is a directory entry joined
onto the images directory whose lowercased extension is in the active
allow-list, namely .png and .gif always and additionally .jpg and .jpeg
exactly when Pillow is available; the result is sorted lexicographically;
and a missing images directory yields the empty list. -/
theorem C8_list_images_filtered_sorted (pil : Bool) (dir : String) (listing : List String)
    (p : String) (hp : p ∈ list_images pil true dir listing) :
    (∃ f ∈ listing, p = os_path_join dir f ∧
        splitext_ext (pyLower f) ∈
          (([".png", ".gif"] ++ if pil then [".jpg", ".jpeg"] else []) : List String)) ∧
    List.Sorted (fun a b : String => a ≤ b) (list_images pil true dir listing) ∧
    list_images pil false dir listing = [] := by
  refine ⟨?_, ?_, rfl⟩
  · unfold list_images at hp
    rw [if_neg (by decide : ¬ (true = false))] at hp
    dsimp only at hp
    have hp2 := (List.perm_insertionSort (fun a b : String => a ≤ b) _).mem_iff.mp hp
    obtain ⟨f, hf, rfl⟩ := List.mem_map.mp hp2
    obtain ⟨hfl, hcond⟩ := List.mem_filter.mp hf
    refine ⟨f, hfl, rfl, ?_⟩
    cases pil
    · simpa using hcond
    · simpa using hcond
  · unfold list_images
    rw [if_neg (by decide : ¬ (true = false))]
    exact List.sorted_insertionSort _ _

/-- C8 witness: a directory listing with one png entry, without Pillow,
produces exactly the joined sorted path. -/
theorem C8_list_images_filtered_sorted_witness :
    (∃ f ∈ (["a.png"] : List String),
        ("assets/images/a.png" : String) = os_path_join "assets/images" f ∧
        splitext_ext (pyLower f) ∈
          (([".png", ".gif"] ++ if false then [".jpg", ".jpeg"] else []) : List String)) ∧
    List.Sorted (fun a b : String => a ≤ b) (list_images false true "assets/images" ["a.png"]) ∧
    list_images false false "assets/images" ["a.png"] = [] :=
  C8_list_images_filtered_sorted false "assets/images" ["a.png"] "assets/images/a.png" (by decide)

/-- C10: the extension filter is case-insensitive: a directory entry
whose extension equals an allow-listed extension up to letter case (its
lowercased extension is in the list) is included in the listing, because
the filter lowercases the name before taking the extension. -/
theorem C10_extension_case_insensitive (pil : Bool) (dir : String) (listing : List String)
    (f : String) (hf : f ∈ listing)
    (hext : pyLower (splitext_ext f) ∈
        (([".png", ".gif"] ++ if pil then [".jpg", ".jpeg"] else []) : List String)) :
    os_path_join dir f ∈ list_images pil true dir listing := by
  unfold list_images
  rw [if_neg (by decide : ¬ (true = false))]
  dsimp only
  apply (List.perm_insertionSort (fun a b : String => a ≤ b) _).mem_iff.mpr
  apply List.mem_map.mpr
  refine ⟨f, List.mem_filter.mpr ⟨hf, ?_⟩, rfl⟩
  rw [splitext_ext_pyLower]
  cases pil
  · simpa using hext
  · simpa using hext

/-- C10 witness: the upper-case entry IMG.PNG is included. -/
theorem C10_extension_case_insensitive_witness :
    os_path_join "assets/images" "IMG.PNG" ∈ list_images false true "assets/images" ["IMG.PNG"] :=
  C10_extension_case_insensitive false "assets/images" ["IMG.PNG"] "IMG.PNG" (by decide) (by decide)

/-- C2 witness: the amended bound instantiated at tick 0. -/
theorem C2_scale_bounded_oscillation_witness :
    0.90 ≤ (beat_step^[0] beatStart).scale ∧ (beat_step^[0] beatStart).scale ≤ 1.10 ∧
    beat_step^[0 + 20] beatStart = beat_step^[0] beatStart :=
  C2_scale_bounded_oscillation 0

/-- C5 witness: the characterization instantiated at the balloon sitting
1 unit above the canvas top. -/
theorem C5_float_up_characterization_witness :
    float_up_one balloonNearTop =
      if balloonNearTop.by1 - 1 < -60 then
        { bx1 := balloonNearTop.bx1, by1 := balloonNearTop.by1 - 1 + balloonCanvasHeight,
          bx2 := balloonNearTop.bx2, by2 := balloonNearTop.by2 - 1 + balloonCanvasHeight,
          sx1 := balloonNearTop.sx1, sy1 := balloonNearTop.sy1 - 1 + balloonCanvasHeight,
          sx2 := balloonNearTop.sx2, sy2 := balloonNearTop.sy2 - 1 + balloonCanvasHeight }
      else
        { bx1 := balloonNearTop.bx1, by1 := balloonNearTop.by1 - 1,
          bx2 := balloonNearTop.bx2, by2 := balloonNearTop.by2 - 1,
          sx1 := balloonNearTop.sx1, sy1 := balloonNearTop.sy1 - 1,
          sx2 := balloonNearTop.sx2, sy2 := balloonNearTop.sy2 - 1 } :=
  C5_float_up_characterization balloonNearTop

/-- C9 witness: a beat over a canvas holding one confetti oval leaves the
confetti sublist unchanged. -/
theorem C9_beat_preserves_confetti_witness :
    (beat_draw [] [{ tag := "confetti", coords := [1, 2, 3, 4] }]).filter
        (fun it => it.tag == "confetti") =
      ([{ tag := "confetti", coords := [1, 2, 3, 4] }] : List CanvasItem).filter
        (fun it => it.tag == "confetti") :=
  C9_beat_preserves_confetti [] [{ tag := "confetti", coords := [1, 2, 3, 4] }]
